import Mathlib

/-!
Verification of the moneybird-slack-bot repository against its specification.

The development shallowly embeds the Python source (src/app.py, src/moneybird.py)
into Lean: Python/JSON values become the inductive type `PyVal`, raised exceptions
become `Except PyErr`, network calls become explicit environment parameters and
call traces, and the `int(float(s) * 100)` amount parsing is modelled with exact
IEEE-754 binary64 round-to-nearest-even arithmetic over natural-number fractions.
-/

namespace Moneybird

/-- Model of a Python/JSON value as passed around by the bot: None, bool, int,
string, list, dict (dicts as association lists with distinct keys). -/
inductive PyVal where
  | pynone
  | pybool (b : Bool)
  | pyint (n : Int)
  | pystr (s : String)
  | pylist (l : List PyVal)
  | pydict (d : List (String × PyVal))

/-- Model of a raised Python exception class, as far as the bot distinguishes them. -/
inductive PyErr where
  | attributeError
  | typeError
  | valueError
  | keyError
  | runtimeError
  deriving DecidableEq

/-- Python truthiness (`bool(v)`) for the modelled values. -/
def PyVal.truthy : PyVal → Bool
  | .pynone => false
  | .pybool b => b
  | .pyint n => n != 0
  | .pystr s => s != ""
  | .pylist l => !l.isEmpty
  | .pydict d => !d.isEmpty

/-- Models `d.get(k)` on a Python dict: the stored value, or None when absent. -/
def dget (d : List (String × PyVal)) (k : String) : PyVal :=
  match d.lookup k with
  | some v => v
  | none => .pynone

/-- Models `d.get(k, dflt)` on a Python dict. -/
def dgetD (d : List (String × PyVal)) (k : String) (dflt : PyVal) : PyVal :=
  match d.lookup k with
  | some v => v
  | none => dflt

/-- Models the Python expression `a or b` (first operand when truthy, else second). -/
def pyOr (a b : PyVal) : PyVal := if a.truthy then a else b

/-- Models `v.get(k)` on an arbitrary value: AttributeError unless `v` is a dict. -/
def PyVal.getA (v : PyVal) (k : String) : Except PyErr PyVal :=
  match v with
  | .pydict d => .ok (dget d k)
  | _ => .error .attributeError

/-- Models `v.get(k, dflt)` on an arbitrary value: AttributeError unless `v` is a dict. -/
def PyVal.getAD (v : PyVal) (k : String) (dflt : PyVal) : Except PyErr PyVal :=
  match v with
  | .pydict d => .ok (dgetD d k dflt)
  | _ => .error .attributeError

/-- Models `for x in v`: lists iterate elements, strings iterate one-character
strings, dicts iterate their keys; other values raise TypeError. -/
def pyIter : PyVal → Except PyErr (List PyVal)
  | .pylist l => .ok l
  | .pystr s => .ok (s.data.map fun c => .pystr (String.singleton c))
  | .pydict d => .ok (d.map fun kv => .pystr kv.1)
  | _ => .error .typeError

/-- Models `v[0]`: first element of a list or string; IndexError (modelled as
keyError) on an empty one, TypeError on non-indexable values. -/
def pyIndex0 : PyVal → Except PyErr PyVal
  | .pylist (x :: _) => .ok x
  | .pylist [] => .error .keyError
  | .pystr s =>
    match s.data with
    | c :: _ => .ok (.pystr (String.singleton c))
    | [] => .error .keyError
  | _ => .error .typeError

/-- Models `str(v)` far enough for the attachment-filename f-string; list and dict
renderings are abbreviated since no claim depends on them. -/
def pyStr : PyVal → String
  | .pystr s => s
  | .pyint n => toString n
  | .pynone => "None"
  | .pybool b => if b then "True" else "False"
  | .pylist _ => "<list>"
  | .pydict _ => "<dict>"

/-! ## Document normalizer (src/app.py, extract_doc_info) -/

/-- One normalized line item, as built by extract_doc_info. -/
structure LineItem where
  description : PyVal
  total_amount : PyVal

/-- The normalized document record returned by extract_doc_info. Field values stay
`PyVal` because the Python code copies raw payload values through unchanged. -/
structure DocInfo where
  id : PyVal
  type : String
  contact : PyVal
  date : PyVal
  amount : PyVal
  currency : PyVal
  description : PyVal
  line_items : List LineItem
  attachments : PyVal

/-- Models the per-entry body of the line-item loop in extract_doc_info:
description with default "", then tax-inclusive amount `or` plain amount
(the latter with default ""). -/
def extractLineItem (item : PyVal) : Except PyErr LineItem := do
  let desc ← item.getAD "description" (.pystr "")
  let incl ← item.getA "total_amount_incl_tax"
  if incl.truthy then
    return ⟨desc, incl⟩
  else
    let plain ← item.getAD "total_amount" (.pystr "")
    return ⟨desc, plain⟩

/-- Sequential processing of the detail entries, in source order; the first
raising entry aborts the loop, as in Python. -/
def extractLineItems : List PyVal → Except PyErr (List LineItem)
  | [] => .ok []
  | x :: xs => do
    let y ← extractLineItem x
    let ys ← extractLineItems xs
    return (y :: ys)

/-- The contact-resolution block at the top of extract_doc_info: embedded
contact's company_name `or` firstname (default ""), elif a truthy contact_id,
else the empty string. -/
def extractContact (raw : List (String × PyVal)) : Except PyErr PyVal :=
  if (dget raw "contact").truthy then do
    let c := dget raw "contact"
    let cn ← c.getA "company_name"
    if cn.truthy then
      pure cn
    else
      c.getAD "firstname" (.pystr "")
  else if (dget raw "contact_id").truthy then
    pure (dgetD raw "contact_id" (.pystr ""))
  else
    pure (.pystr "")

/-- Embedding of extract_doc_info from src/app.py: normalize a raw receipt or
purchase_invoice dict into the common DocInfo structure. An `.error` result
models an uncaught Python exception. -/
def extract_doc_info (raw : List (String × PyVal)) (doc_type : String) :
    Except PyErr DocInfo := do
  let contact_name ← extractContact raw
  let amount := pyOr (dget raw "total_amount")
    (pyOr (dget raw "total_amount_incl_tax") (.pystr "0"))
  let details ← pyIter (dgetD raw "details" (.pylist []))
  let line_items ← extractLineItems details
  return {
    id := dget raw "id"
    type := doc_type
    contact := contact_name
    date := pyOr (dget raw "date") (dgetD raw "invoice_date" (.pystr ""))
    amount := amount
    currency := pyOr (dget raw "currency") (.pystr "EUR")
    description := pyOr (dget raw "reference")
      (pyOr (dget raw "invoice_sequence_identifier") (.pystr ""))
    line_items := line_items
    attachments := dgetD raw "attachments" (.pylist [])
  }

/-- Pure shape of one normalized line item for a well-typed (dict) detail entry;
used to state what extractLineItem computes. Non-dict entries raise in the code
and get a dummy value here. -/
def lineOf (item : PyVal) : LineItem :=
  match item with
  | .pydict dd =>
    ⟨dgetD dd "description" (.pystr ""),
      pyOr (dget dd "total_amount_incl_tax") (dgetD dd "total_amount" (.pystr ""))⟩
  | _ => ⟨.pystr "", .pystr ""⟩

/-! ## Exact binary64 arithmetic for the amount parser

find_payment_candidates parses amounts with `int(float(s.replace(",", ".")) * 100)`.
CPython's float is an IEEE-754 binary64 with correctly rounded conversions, so the
model computes: exact decimal value as a fraction, round to nearest double (even on
ties), multiply by 100 and round again, then truncate toward zero. Everything is
plain Nat/Int arithmetic so that the kernel can evaluate it. The model covers the
normal range of binary64, which amply contains every amount this program handles. -/

/-- Fuel-driven floor of log2; natLog2Aux n n computes Nat.log2 n structurally. -/
def natLog2Aux : Nat → Nat → Nat
  | 0, _ => 0
  | fuel + 1, n => if 2 ≤ n then natLog2Aux fuel (n / 2) + 1 else 0

/-- Floor of the base-2 logarithm, kernel-reducible. -/
def natLog2 (n : Nat) : Nat := natLog2Aux n n

/-- Decides 2 ^ c ≤ n / d for a positive fraction, by cross-multiplication. -/
def pow2Le (c : Int) (n d : Nat) : Bool :=
  if 0 ≤ c then 2 ^ c.toNat * d ≤ n else d ≤ 2 ^ (-c).toNat * n

/-- Floor of log2 of the positive fraction n / d. -/
def fracFloorLog2 (n d : Nat) : Int :=
  let c : Int := (natLog2 n : Int) - (natLog2 d : Int)
  if pow2Le (c + 1) n d then c + 1 else if pow2Le c n d then c else c - 1

/-- Round the fraction n / d to the nearest integer, ties to even. -/
def roundHalfEvenFrac (n d : Nat) : Nat :=
  let f := n / d
  let r := n % d
  if 2 * r < d then f
  else if d < 2 * r then f + 1
  else if f % 2 = 0 then f else f + 1

/-- Mantissa of n / d at binary exponent e: round((n / d) * 2 ^ (52 - e)) to even. -/
def mantissaAt (n d : Nat) (e : Int) : Nat :=
  let s : Int := 52 - e
  if 0 ≤ s then roundHalfEvenFrac (n * 2 ^ s.toNat) d
  else roundHalfEvenFrac n (d * 2 ^ (-s).toNat)

/-- A binary64 value: sign, 53-bit mantissa and exponent, value sgn * m * 2^(e-52);
zero is mantissa 0. -/
structure FloatRep where
  sgn : Int
  m : Nat
  e : Int

/-- Correctly rounded conversion of the signed fraction sgn * (n / d) to binary64. -/
def roundDoubleFrac (sgn : Int) (n d : Nat) : FloatRep :=
  if n = 0 then ⟨1, 0, 0⟩
  else
    let e := fracFloorLog2 n d
    ⟨sgn, mantissaAt n d e, e⟩

/-- Binary64 multiplication of a float by the exactly representable constant 100. -/
def floatTimes100 (x : FloatRep) : FloatRep :=
  if x.m = 0 then x
  else
    let s : Int := x.e - 52
    if 0 ≤ s then roundDoubleFrac x.sgn (x.m * 100 * 2 ^ s.toNat) 1
    else roundDoubleFrac x.sgn (x.m * 100) (2 ^ (-s).toNat)

/-- Models Python int(x) on a float: truncation toward zero. -/
def floatTruncToInt (x : FloatRep) : Int :=
  if x.m = 0 then 0
  else
    let s : Int := x.e - 52
    let mag : Nat := if 0 ≤ s then x.m * 2 ^ s.toNat else x.m / 2 ^ (-s).toNat
    x.sgn * mag

/-- Split a character list at every occurrence of sep; always nonempty output. -/
def splitOnChar (sep : Char) : List Char → List (List Char)
  | [] => [[]]
  | c :: cs =>
    match splitOnChar sep cs with
    | [] => [[]]
    | h :: t => if c = sep then [] :: h :: t else (c :: h) :: t

/-- Decimal value of a digit list, most significant first. -/
def digitsToNat (l : List Char) : Nat := l.foldl (fun a c => 10 * a + (c.toNat - 48)) 0

/-- Models Python float(s) for plain decimal numerals, as (sign, numerator,
denominator): optional sign, digits, optional dot and digits. Exotic inputs that
Python's float also accepts (scientific notation, inf and nan, underscores,
surrounding whitespace) never reach this parser in the bot and are modelled as
failures; none models a ValueError. -/
def parseDecimal (s : String) : Option (Int × Nat × Nat) :=
  let sl : Int × List Char :=
    match s.data with
    | '-' :: rest => (-1, rest)
    | '+' :: rest => (1, rest)
    | l => (1, l)
  match splitOnChar '.' sl.2 with
  | [ip] =>
    if ip ≠ [] ∧ ip.all Char.isDigit then some (sl.1, digitsToNat ip, 1) else none
  | [ip, fp] =>
    if (ip ≠ [] ∨ fp ≠ []) ∧ ip.all Char.isDigit ∧ fp.all Char.isDigit then
      some (sl.1, digitsToNat ip * 10 ^ fp.length + digitsToNat fp, 10 ^ fp.length)
    else none
  | _ => none

/-- Models `int(float(s) * 100)`: parse, round to binary64, multiply by 100 in
binary64, truncate toward zero; none models a ValueError. -/
def pyFloatCents (s : String) : Option Int :=
  (parseDecimal s).map fun t =>
    floatTruncToInt (floatTimes100 (roundDoubleFrac t.1 t.2.1 t.2.2))

/-- Models Python `s.replace(",", ".")` for the single-character pattern. -/
def replaceCommaDot (s : String) : String :=
  String.mk (s.data.map fun c => if c = ',' then '.' else c)

/-- Models `int(float(s.replace(",", ".")) * 100)`, the amount parse used in
find_payment_candidates and process_document. -/
def pyAmountCents (s : String) : Option Int := pyFloatCents (replaceCommaDot s)

/-! ## Payment matcher (src/moneybird.py, find_payment_candidates) -/

/-- One payment candidate dict as built by find_payment_candidates. The built
dict carries no verdict key; process_document later stores one on the first
three candidates, so the field is an Option that starts out none. -/
structure PaymentCandidate where
  id : PyVal
  date : PyVal
  amount : PyVal
  description : PyVal
  contact : PyVal
  verdict : Option PyVal

/-- Models the guarded amount parse of one mutation inside the loop of
find_payment_candidates: `int(float(m.get("amount", "0").replace(",", ".")) * 100)`
under `except (ValueError, AttributeError): continue`; none models a caught
exception (non-dict mutation, non-string amount, or unparseable string). -/
def mutationCents (m : PyVal) : Option Int :=
  match m with
  | .pydict d =>
    match dgetD d "amount" (.pystr "0") with
    | .pystr s => pyAmountCents s
    | _ => none
  | _ => none

/-- Models building the candidate dict for an in-tolerance mutation dict; only
the contact lookup can raise (AttributeError when a truthy contact is not a
dict), and that raise is outside the loop's try block. -/
def candidateOf (d : List (String × PyVal)) : Except PyErr PaymentCandidate :=
  match (if (dget d "contact").truthy then (dget d "contact").getA "company_name"
         else .ok (.pystr "")) with
  | .error e => .error e
  | .ok c =>
    .ok {
      id := dget d "id"
      date := dget d "date"
      amount := dget d "amount"
      description := pyOr (dget d "message") (pyOr (dget d "description") (.pystr ""))
      contact := c
      verdict := none
    }

/-- One iteration of the find_payment_candidates loop: skip a mutation whose
amount does not parse (caught ValueError/AttributeError) or is out of tolerance;
otherwise build the candidate (whose contact lookup may raise — propagated) and
prepend it to the rest of the loop's result. -/
def stepCandidate (amount_cents tolerance_cents : Int) (m : PyVal)
    (tail : Except PyErr (List PaymentCandidate)) : Except PyErr (List PaymentCandidate) :=
  match mutationCents m with
  | none => tail
  | some mc =>
    if |mc - amount_cents| ≤ tolerance_cents then
      match m with
      | .pydict d =>
        match candidateOf d with
        | .error e => .error e
        | .ok c =>
          match tail with
          | .error e => .error e
          | .ok cs => .ok (c :: cs)
      | _ =>
        -- unreachable: mutationCents returns some only for dict mutations
        tail
    else tail

/-- Embedding of find_payment_candidates from src/moneybird.py. The network call
get_unreconciled_payments() is modelled by the explicit `mutations` argument (its
Python counterpart returns a list and swallows its own errors). In the source
contact_name defaults to None and tolerance_cents to 100; an `.error` result
models an uncaught exception, which loses the partial list as in Python. -/
def find_payment_candidates (amount_cents : Int) (contact_name : PyVal)
    (tolerance_cents : Int) : List PyVal → Except PyErr (List PaymentCandidate)
  | [] => .ok []
  | m :: rest =>
    stepCandidate amount_cents tolerance_cents m
      (find_payment_candidates amount_cents contact_name tolerance_cents rest)

/-- Pure shape of the candidate built from a mutation dict whose truthy contact
field, if any, is a dict; used to state what find_payment_candidates returns. -/
def candidatePure (d : List (String × PyVal)) : PaymentCandidate :=
  { id := dget d "id"
    date := dget d "date"
    amount := dget d "amount"
    description := pyOr (dget d "message") (pyOr (dget d "description") (.pystr ""))
    contact :=
      if (dget d "contact").truthy then
        match dget d "contact" with
        | .pydict c => dget c "company_name"
        | _ => .pynone
      else .pystr ""
    verdict := none }

/-- Candidate selection as a per-mutation Option: some exactly when the mutation
is a dict whose amount parses within tolerance of the target. -/
def candOf (amount_cents tolerance_cents : Int) (m : PyVal) : Option PaymentCandidate :=
  match m, mutationCents m with
  | .pydict d, some mc =>
    if |mc - amount_cents| ≤ tolerance_cents then some (candidatePure d)
    else none
  | _, _ => none

/-! ## Slack interactivity endpoint (src/app.py) -/

/-- Models `int(s)` on a string: ValueError unless an optionally signed decimal
numeral (Python also strips whitespace and accepts underscores; such inputs do
not occur here and are modelled as failures). -/
def pyIntParse (s : String) : Except PyErr Int :=
  match s.data with
  | '-' :: ds =>
    if ds ≠ [] ∧ ds.all Char.isDigit then .ok (-(digitsToNat ds : Int))
    else .error .valueError
  | '+' :: ds =>
    if ds ≠ [] ∧ ds.all Char.isDigit then .ok (digitsToNat ds : Int)
    else .error .valueError
  | ds =>
    if ds ≠ [] ∧ ds.all Char.isDigit then .ok (digitsToNat ds : Int)
    else .error .valueError

/-- Join strings with a single-character separator. -/
def joinWith (sep : Char) : List String → String
  | [] => ""
  | [x] => x
  | x :: y :: xs => x ++ String.singleton sep ++ joinWith sep (y :: xs)

/-- Models Python `s.split(sep, maxsplit)` for a one-character separator: at most
maxsplit splits, the remainder staying joined in the final part. -/
def pySplit (s : String) (sep : Char) (maxsplit : Nat) : List String :=
  let parts := (splitOnChar sep s.data).map fun l => String.mk l
  if parts.length ≤ maxsplit + 1 then parts
  else parts.take maxsplit ++ [joinWith sep (parts.drop maxsplit)]

/-- The module-level DOC_TYPE_LABEL table of src/app.py. -/
def DOC_TYPE_LABEL : List (String × String) :=
  [("receipt", "Receipt"), ("purchase_invoice", "Purchase Invoice")]

/-- Downstream (Moneybird, Slack, Claude) calls the handlers can make; traces of
these model the observable outbound behaviour. -/
inductive ExtCall where
  | getReceipt (id : String)
  | getTypeless (id : String)
  | getPurchaseInvoice (id : String)
  | bookReceipt (id : String)
  | bookPurchaseInvoice (id : String)
  | linkPaymentReceipt (id mid : String)
  | linkPaymentInvoice (id mid : String)
  | getAttachment (docTypePlural docId : String) (attId : PyVal)
  | uploadAttachment (filename : PyVal)
  | suggestJournal (doc : DocInfo)
  | suggestMatch (cand : PaymentCandidate)
  | postNotification (doc : DocInfo) (journal : PyVal)
      (cands : List PaymentCandidate) (permalink : Option PyVal)
  | updateBooked (channel ts label : String) (contact : PyVal)
  | updateSkipped (channel ts label : String) (contact : PyVal)
  | updatePaymentLinked (channel ts label : String) (contact : PyVal)

/-- Behaviour of the external services, supplied as an oracle: fetchers return
none to model a raised exception, mutators return false to model one. The
Slack message post/update calls only log on failure in the source, so they are
modelled as always succeeding. mutations models get_unreconciled_payments(),
which itself never raises. -/
structure BotEnv where
  getReceipt : String → Option (List (String × PyVal))
  getTypeless : String → Option (List (String × PyVal))
  getPurchaseInvoice : String → Option (List (String × PyVal))
  bookReceipt : String → Bool
  bookPurchaseInvoice : String → Bool
  linkReceipt : String → String → Bool
  linkInvoice : String → String → Bool
  getAttachmentContent : String → String → PyVal → Bool
  uploadAttachment : PyVal → Option PyVal
  suggestJournal : DocInfo → Option PyVal
  suggestMatch : PaymentCandidate → DocInfo → Option PyVal
  mutations : List PyVal

/-- One entry of the interactive payload's actions list: action_id and value. -/
structure SlackAction where
  action_id : String
  value : String

/-- The decoded interactive payload. The channel and message-timestamp
resolution (container versus top-level fields) is elided into two strings,
since no claim concerns it. -/
structure SlackPayload where
  actions : List SlackAction
  channel : String
  ts : String

/-- An inbound request to /slack/actions: the two Slack headers, the raw body,
and the already-decoded form payload. -/
structure SlackRequest where
  tsHeader : String
  body : String
  sigHeader : String
  payload : SlackPayload

/-- Embedding of verify_slack_signature from src/app.py. The HMAC-SHA256 hex
digest is an abstract function parameter (a cryptographic primitive is not
re-modelled); now stands for time.time() in whole seconds. int("") and other
non-numeral timestamps raise ValueError, which Flask would surface as a 500;
hmac.compare_digest is string equality. -/
def verify_slack_signature (hmacHex : String → String → String) (secret : String)
    (now : Int) (req : SlackRequest) : Except PyErr Bool := do
  let ts ← pyIntParse req.tsHeader
  if 300 < (now - ts).natAbs then
    return false
  else
    let sig_basestring := "v0:" ++ req.tsHeader ++ ":" ++ req.body
    let my_sig := "v0=" ++ hmacHex secret sig_basestring
    return (my_sig == req.sigHeader)

/-- The book_document branch of slack_actions: split the value on ":" with one
split; proceed only on exactly two parts; all exceptions inside are caught and
logged, so the handler only determines which downstream calls happen. -/
def handleBookDocument (env : BotEnv) (value channel ts : String) : List ExtCall :=
  match pySplit value ':' 1 with
  | [doc_type, doc_id] =>
    let label := (DOC_TYPE_LABEL.lookup doc_type).getD "Document"
    if doc_type = "receipt" then
      match env.getReceipt doc_id with
      | none => [.getReceipt doc_id]
      | some raw =>
        match extract_doc_info raw doc_type with
        | .error _ => [.getReceipt doc_id]
        | .ok d =>
          if env.bookReceipt doc_id then
            [.getReceipt doc_id, .bookReceipt doc_id,
              .updateBooked channel ts label d.contact]
          else
            [.getReceipt doc_id, .bookReceipt doc_id]
    else
      match env.getPurchaseInvoice doc_id with
      | none => [.getPurchaseInvoice doc_id]
      | some raw =>
        match extract_doc_info raw doc_type with
        | .error _ => [.getPurchaseInvoice doc_id]
        | .ok d =>
          if env.bookPurchaseInvoice doc_id then
            [.getPurchaseInvoice doc_id, .bookPurchaseInvoice doc_id,
              .updateBooked channel ts label d.contact]
          else
            [.getPurchaseInvoice doc_id, .bookPurchaseInvoice doc_id]
  | _ => []

/-- The skip_document branch of slack_actions: fetch, normalize, update the
message; same split discipline as book_document. -/
def handleSkipDocument (env : BotEnv) (value channel ts : String) : List ExtCall :=
  match pySplit value ':' 1 with
  | [doc_type, doc_id] =>
    let label := (DOC_TYPE_LABEL.lookup doc_type).getD "Document"
    if doc_type = "receipt" then
      match env.getReceipt doc_id with
      | none => [.getReceipt doc_id]
      | some raw =>
        match extract_doc_info raw doc_type with
        | .error _ => [.getReceipt doc_id]
        | .ok d => [.getReceipt doc_id, .updateSkipped channel ts label d.contact]
    else
      match env.getPurchaseInvoice doc_id with
      | none => [.getPurchaseInvoice doc_id]
      | some raw =>
        match extract_doc_info raw doc_type with
        | .error _ => [.getPurchaseInvoice doc_id]
        | .ok d =>
          [.getPurchaseInvoice doc_id, .updateSkipped channel ts label d.contact]
  | _ => []

/-- The link_payment branch of slack_actions: split the value on ":" with two
splits; proceed only on exactly three parts. -/
def handleLinkPayment (env : BotEnv) (value channel ts : String) : List ExtCall :=
  match pySplit value ':' 2 with
  | [doc_type, doc_id, mutation_id] =>
    let label := (DOC_TYPE_LABEL.lookup doc_type).getD "Document"
    if doc_type = "receipt" then
      match env.getReceipt doc_id with
      | none => [.getReceipt doc_id]
      | some raw =>
        match extract_doc_info raw doc_type with
        | .error _ => [.getReceipt doc_id]
        | .ok d =>
          if env.linkReceipt doc_id mutation_id then
            [.getReceipt doc_id, .linkPaymentReceipt doc_id mutation_id,
              .updatePaymentLinked channel ts label d.contact]
          else
            [.getReceipt doc_id, .linkPaymentReceipt doc_id mutation_id]
    else
      match env.getPurchaseInvoice doc_id with
      | none => [.getPurchaseInvoice doc_id]
      | some raw =>
        match extract_doc_info raw doc_type with
        | .error _ => [.getPurchaseInvoice doc_id]
        | .ok d =>
          if env.linkInvoice doc_id mutation_id then
            [.getPurchaseInvoice doc_id, .linkPaymentInvoice doc_id mutation_id,
              .updatePaymentLinked channel ts label d.contact]
          else
            [.getPurchaseInvoice doc_id, .linkPaymentInvoice doc_id mutation_id]
  | _ => []

/-- Embedding of the /slack/actions endpoint: verify the signature (403 with no
downstream call on failure), 200 with no call on an empty actions list, else
dispatch the first action by action_id; the result is the HTTP status plus the
trace of downstream calls, and an `.error` models an uncaught exception. -/
def slack_actions (env : BotEnv) (hmacHex : String → String → String)
    (secret : String) (now : Int) (req : SlackRequest) :
    Except PyErr (Nat × List ExtCall) := do
  let ok ← verify_slack_signature hmacHex secret now req
  if !ok then
    return (403, [])
  else
    match req.payload.actions with
    | [] => return (200, [])
    | action :: _ =>
      let channel := req.payload.channel
      let ts := req.payload.ts
      let calls :=
        if action.action_id = "book_document" then
          handleBookDocument env action.value channel ts
        else if action.action_id = "skip_document" then
          handleSkipDocument env action.value channel ts
        else if action.action_id = "link_payment" then
          handleLinkPayment env action.value channel ts
        else []
      return (200, calls)

/-! ## Background pipeline (src/app.py, process_document) -/

/-- A computation that records downstream calls and may raise: the calls made so
far paired with the result; on error, calls already made remain in the trace. -/
def Trace (α : Type) : Type := List ExtCall × Except PyErr α

/-- Sequencing for Trace: concatenate call logs, propagate the first error. -/
def traceBind (x : Trace α) (f : α → Trace β) : Trace β :=
  match x with
  | (cs, .error e) => (cs, .error e)
  | (cs, .ok a) =>
    let y := f a
    (cs ++ y.1, y.2)

instance : Monad Trace where
  pure a := ([], .ok a)
  bind := traceBind

/-- Lift a possibly raising pure computation into Trace. -/
def liftE : Except PyErr α → Trace α
  | .ok a => ([], .ok a)
  | .error e => ([], .error e)

/-- Record an external call whose oracle answer is an Option; none raises. -/
def envCall (c : ExtCall) : Option α → Trace α
  | some a => ([c], .ok a)
  | none => ([c], .error .runtimeError)

/-- Record an external call whose oracle answer is a success Bool; false raises. -/
def envCallB (c : ExtCall) (b : Bool) : Trace Unit :=
  ([c], if b then .ok () else .error .runtimeError)

/-- Record an external call that always succeeds. -/
def callT (c : ExtCall) : Trace Unit := ([c], .ok ())

/-- Models the amount parse in process_document:
`int(float(doc_info["amount"].replace(",", ".")) * 100)` with ValueError and
AttributeError collapsed to 0. -/
def docAmountCents (v : PyVal) : Int :=
  match v with
  | .pystr s => (pyAmountCents s).getD 0
  | _ => 0

/-- The per-candidate verdict loop of process_document, applied to the first
three candidates: each gets a Claude verdict stored on it. -/
def verdictLoop (env : BotEnv) (doc_info : DocInfo) :
    List PaymentCandidate → Trace (List PaymentCandidate)
  | [] => pure []
  | c :: cs => do
    let v ← envCall (.suggestMatch c) (env.suggestMatch c doc_info)
    let rest ← verdictLoop env doc_info cs
    pure ({ c with verdict := some v } :: rest)

/-- The body of process_document's try block after the document fetch: normalize,
upload the first attachment if any, ask for a journal suggestion, compute payment
candidates, add verdicts to the first three, post the notification. -/
def processBody (env : BotEnv) (doc_type doc_id : String)
    (raw : List (String × PyVal)) : Trace Unit := do
  let doc_info ← liftE (extract_doc_info raw doc_type)
  let attachment_permalink ←
    if doc_info.attachments.truthy then do
      let att ← liftE (pyIndex0 doc_info.attachments)
      let att_id ← liftE (att.getA "id")
      let fn ← liftE (att.getA "filename")
      let filename := pyOr fn (.pystr ("attachment_" ++ pyStr att_id))
      envCallB (.getAttachment (doc_type ++ "s") doc_id att_id)
        (env.getAttachmentContent (doc_type ++ "s") doc_id att_id)
      let permalink ← envCall (.uploadAttachment filename)
        (env.uploadAttachment filename)
      pure (some permalink)
    else
      pure none
  let journal ← envCall (.suggestJournal doc_info) (env.suggestJournal doc_info)
  let amount_cents : Int := docAmountCents doc_info.amount
  let candidates ← liftE
    (find_payment_candidates amount_cents doc_info.contact 100 env.mutations)
  let withVerdicts ← verdictLoop env doc_info (candidates.take 3)
  let candidates := withVerdicts ++ candidates.drop 3
  callT (.postNotification doc_info journal candidates attachment_permalink)

/-- Outcome of one background pipeline run: completed, or an exception caught
and logged by the outer handler of process_document. -/
inductive Outcome where
  | completed
  | errorLogged
  deriving DecidableEq

/-- Embedding of process_document from src/app.py: fetch the document (receipts
fall back to the typeless-document fetch when the receipt fetch raises), then
run the pipeline body; any exception is caught by the outer handler and logged.
The result is the outcome plus the trace of downstream calls. -/
def process_document (env : BotEnv) (doc_type doc_id : String) :
    Outcome × List ExtCall :=
  let fetched : Trace (List (String × PyVal)) :=
    if doc_type = "receipt" then
      match env.getReceipt doc_id with
      | some raw => ([.getReceipt doc_id], .ok raw)
      | none =>
        match env.getTypeless doc_id with
        | some raw => ([.getReceipt doc_id, .getTypeless doc_id], .ok raw)
        | none => ([.getReceipt doc_id, .getTypeless doc_id], .error .runtimeError)
    else
      match env.getPurchaseInvoice doc_id with
      | some raw => ([.getPurchaseInvoice doc_id], .ok raw)
      | none => ([.getPurchaseInvoice doc_id], .error .runtimeError)
  match traceBind fetched (fun raw => processBody env doc_type doc_id raw) with
  | (cs, .ok _) => (.completed, cs)
  | (cs, .error _) => (.errorLogged, cs)

/-! ## Concrete fixtures used by the claim theorems and witnesses -/

def docShape (raw : List (String × PyVal)) (t : String) (cn : PyVal) (lis : List LineItem) : DocInfo :=
  { id := dget raw "id", type := t, contact := cn,
    date := pyOr (dget raw "date") (dgetD raw "invoice_date" (.pystr "")),
    amount := pyOr (dget raw "total_amount") (pyOr (dget raw "total_amount_incl_tax") (.pystr "0")),
    currency := pyOr (dget raw "currency") (.pystr "EUR"),
    description := pyOr (dget raw "reference") (pyOr (dget raw "invoice_sequence_identifier") (.pystr "")),
    line_items := lis,
    attachments := dgetD raw "attachments" (.pylist []) }

/-- Fixture payload carrying both totals, for settling the amount priority. -/
def c1raw : List (String × PyVal) :=
  [("total_amount", .pystr "50"), ("total_amount_incl_tax", .pystr "60.50")]

/-- The record extract_doc_info produces for c1raw. -/
def c1doc : DocInfo :=
  { id := .pynone, type := "receipt", contact := .pystr "", date := .pystr "",
    amount := .pystr "50", currency := .pystr "EUR", description := .pystr "",
    line_items := [], attachments := .pylist [] }

/-- Fixture payload with a well-typed contact dict and detail list. -/
def c5raw : List (String × PyVal) :=
  [("contact", .pydict [("company_name", .pystr "ACME")]),
   ("details", .pylist [.pydict [("description", .pystr "pens")]])]

/-- Fixture payload with an embedded contact whose names are empty and a
referenced contact id. -/
def c6raw : List (String × PyVal) :=
  [("contact", .pydict [("company_name", .pystr ""), ("firstname", .pystr "")]),
   ("contact_id", .pystr "42")]

/-- The record extract_doc_info produces for c6raw. -/
def c6doc : DocInfo :=
  { id := .pynone, type := "receipt", contact := .pystr "", date := .pystr "",
    amount := .pystr "0", currency := .pystr "EUR", description := .pystr "",
    line_items := [], attachments := .pylist [] }

/-- Fixture detail entries: one without a description, one with both fields. -/
def c9items : List PyVal :=
  [.pydict [("total_amount", .pystr "5.00")],
   .pydict [("description", .pystr "tape"), ("total_amount_incl_tax", .pystr "2.42")]]

def c9raw : List (String × PyVal) := [("details", .pylist c9items)]

/-- The record extract_doc_info produces for c9raw. -/
def c9doc : DocInfo :=
  { id := .pynone, type := "receipt", contact := .pystr "", date := .pystr "",
    amount := .pystr "0", currency := .pystr "EUR", description := .pystr "",
    line_items := [⟨.pystr "", .pystr "5.00"⟩, ⟨.pystr "tape", .pystr "2.42"⟩],
    attachments := .pylist [] }

/-- Fixture mutation list: comma amount in tolerance, unparseable amount,
amount far out of tolerance, dot amount in tolerance. -/
def c4ms : List PyVal :=
  [.pydict [("id", .pyint 1), ("amount", .pystr "10,00")],
   .pydict [("id", .pyint 2), ("amount", .pystr "oops")],
   .pydict [("id", .pyint 3), ("amount", .pystr "999.00")],
   .pydict [("id", .pyint 4), ("amount", .pystr "10.50")]]

/-- A concrete stand-in digest function for witnesses. -/
def hmacConst : String → String → String := fun _ _ => "H"

/-- Oracle in which every external call fails and no mutations exist. -/
def botEnvTrivial : BotEnv :=
  { getReceipt := fun _ => none
    getTypeless := fun _ => none
    getPurchaseInvoice := fun _ => none
    bookReceipt := fun _ => false
    bookPurchaseInvoice := fun _ => false
    linkReceipt := fun _ _ => false
    linkInvoice := fun _ _ => false
    getAttachmentContent := fun _ _ _ => false
    uploadAttachment := fun _ => none
    suggestJournal := fun _ => none
    suggestMatch := fun _ _ => none
    mutations := [] }

/-- A request whose HMAC matches hmacConst but whose timestamp is stale at
now = 301. -/
def reqStale : SlackRequest :=
  { tsHeader := "0", body := "B", sigHeader := "v0=H",
    payload := { actions := [], channel := "", ts := "" } }

/-- Oracle for the C7 counterexample: the receipt fetch and booking succeed. -/
def env7 : BotEnv :=
  { botEnvTrivial with getReceipt := fun _ => some [], bookReceipt := fun _ => true }

/-- A verified request whose book action carries a three-part value. -/
def req7 : SlackRequest :=
  { tsHeader := "0", body := "B", sigHeader := "v0=H",
    payload := { actions := [⟨"book_document", "receipt:123:456"⟩],
                 channel := "C", ts := "T" } }

/-- A verified request whose book action carries a delimiter-free value. -/
def req7b : SlackRequest :=
  { tsHeader := "0", body := "B", sigHeader := "v0=H",
    payload := { actions := [⟨"book_document", "receipt"⟩],
                 channel := "C", ts := "T" } }

/-- Oracle in which only the typeless-document fetch succeeds. -/
def envC10 : BotEnv := { botEnvTrivial with getTypeless := fun _ => some [] }

/-- The record extract_doc_info produces for the empty receipt payload. -/
def emptyReceiptDoc : DocInfo :=
  { id := .pynone, type := "receipt", contact := .pystr "", date := .pystr "",
    amount := .pystr "0", currency := .pystr "EUR", description := .pystr "",
    line_items := [], attachments := .pylist [] }

/-! ## Theorems -/

variable {α β : Type}

theorem ebind_ok (a : α) (f : α → Except PyErr β) : (Except.ok a >>= f) = f a := rfl

theorem ebind_err (e : PyErr) (f : α → Except PyErr β) :
    ((Except.error e : Except PyErr α) >>= f) = .error e := rfl

theorem emap_ok (f : α → β) (a : α) :
    (f <$> (Except.ok a : Except PyErr α)) = .ok (f a) := rfl

theorem emap_err (f : α → β) (e : PyErr) :
    (f <$> (Except.error e : Except PyErr α)) = .error e := rfl

theorem epure (a : α) : (pure a : Except PyErr α) = .ok a := rfl

theorem extract_doc_info_ok {raw : List (String × PyVal)} {t : String} {d : DocInfo}
    (h : extract_doc_info raw t = .ok d) :
    ∃ cn details lis, extractContact raw = .ok cn ∧
      pyIter (dgetD raw "details" (.pylist [])) = .ok details ∧
      extractLineItems details = .ok lis ∧
      d = docShape raw t cn lis := by
  unfold extract_doc_info at h
  cases hc : extractContact raw with
  | error e => rw [hc, ebind_err] at h; exact absurd h (by simp)
  | ok cn =>
    rw [hc, ebind_ok] at h
    cases hi : pyIter (dgetD raw "details" (.pylist [])) with
    | error e => rw [hi, ebind_err] at h; exact absurd h (by simp)
    | ok details =>
      rw [hi, ebind_ok] at h
      cases hl : extractLineItems details with
      | error e => rw [hl, ebind_err] at h; exact absurd h (by simp)
      | ok lis =>
        rw [hl, ebind_ok, epure] at h
        refine ⟨cn, details, lis, rfl, rfl, hl, ?_⟩
        cases h
        rfl

theorem extractLineItem_dict (dd : List (String × PyVal)) :
    extractLineItem (.pydict dd) = .ok (lineOf (.pydict dd)) := by
  by_cases hb : (dget dd "total_amount_incl_tax").truthy <;>
    simp [extractLineItem, lineOf, pyOr, PyVal.getA, PyVal.getAD, ebind_ok, epure, hb]

theorem extractLineItem_ok {it : PyVal} {l : LineItem} (h : extractLineItem it = .ok l) :
    (∃ dd, it = .pydict dd) ∧ l = lineOf it := by
  cases it with
  | pydict dd =>
    rw [extractLineItem_dict] at h
    cases h
    exact ⟨⟨dd, rfl⟩, rfl⟩
  | pynone => exact absurd h (by simp [extractLineItem, PyVal.getAD, ebind_err])
  | pybool b => exact absurd h (by simp [extractLineItem, PyVal.getAD, ebind_err])
  | pyint n => exact absurd h (by simp [extractLineItem, PyVal.getAD, ebind_err])
  | pystr s => exact absurd h (by simp [extractLineItem, PyVal.getAD, ebind_err])
  | pylist l2 => exact absurd h (by simp [extractLineItem, PyVal.getAD, ebind_err])

theorem extractLineItems_ok {items : List PyVal} {lis : List LineItem}
    (h : extractLineItems items = .ok lis) : lis = items.map lineOf := by
  induction items generalizing lis with
  | nil => cases h; rfl
  | cons x xs ih =>
    unfold extractLineItems at h
    cases hx : extractLineItem x with
    | error e => rw [hx, ebind_err] at h; exact absurd h (by simp)
    | ok y =>
      rw [hx, ebind_ok] at h
      cases hxs : extractLineItems xs with
      | error e => rw [hxs, ebind_err] at h; exact absurd h (by simp)
      | ok ys =>
        rw [hxs, ebind_ok, epure] at h
        cases h
        rw [List.map_cons, ← ih hxs, ← (extractLineItem_ok hx).2]

theorem extractLineItems_ok_of_dicts {items : List PyVal}
    (h : ∀ it ∈ items, ∃ dd, it = .pydict dd) :
    extractLineItems items = .ok (items.map lineOf) := by
  induction items with
  | nil => rfl
  | cons x xs ih =>
    obtain ⟨dd, hdd⟩ := h x (by simp)
    subst hdd
    unfold extractLineItems
    rw [extractLineItem_dict, ebind_ok, ih (fun it hit => h it (by simp [hit])), ebind_ok, epure]
    rfl

theorem extractContact_dict {raw : List (String × PyVal)} {c : List (String × PyVal)}
    (hc : dget raw "contact" = .pydict c) (ht : (PyVal.pydict c).truthy = true) :
    extractContact raw =
      .ok (if (dget c "company_name").truthy then dget c "company_name"
           else dgetD c "firstname" (.pystr "")) := by
  unfold extractContact
  rw [hc, ht]
  by_cases hb : (dget c "company_name").truthy <;>
    simp [PyVal.getA, PyVal.getAD, ebind_ok, epure, hb]

theorem extractContact_no_contact {raw : List (String × PyVal)}
    (h : (dget raw "contact").truthy = false) :
    extractContact raw =
      .ok (if (dget raw "contact_id").truthy then dgetD raw "contact_id" (.pystr "")
           else .pystr "") := by
  unfold extractContact
  rw [h]
  by_cases hb : (dget raw "contact_id").truthy <;> simp [hb, epure]

/-- C1: amount resolution priority actually implemented by extract_doc_info:
plain total first, then tax-inclusive total, then "0". -/

theorem C1_amount_resolution :
    ∀ (raw : List (String × PyVal)) (t : String) (d : DocInfo),
      extract_doc_info raw t = .ok d →
      ((dget raw "total_amount").truthy = true → d.amount = dget raw "total_amount") ∧
      ((dget raw "total_amount").truthy = false →
        (dget raw "total_amount_incl_tax").truthy = true →
        d.amount = dget raw "total_amount_incl_tax") ∧
      ((dget raw "total_amount").truthy = false →
        (dget raw "total_amount_incl_tax").truthy = false →
        d.amount = .pystr "0") := by
  intro raw t d h
  obtain ⟨cn, details, lis, hcn, hdi, hlis, hd⟩ := extract_doc_info_ok h
  subst hd
  refine ⟨fun h1 => ?_, fun h1 h2 => ?_, fun h1 h2 => ?_⟩
  · simp [docShape, pyOr, h1]
  · simp [docShape, pyOr, h1, h2]
  · simp [docShape, pyOr, h1, h2]

/-- C1 counterexample: with both totals present the code keeps the plain total. -/
theorem C1_counterexample :
    extract_doc_info c1raw "receipt" = .ok c1doc ∧
    c1doc.amount = .pystr "50" ∧ (PyVal.pystr "50") ≠ (.pystr "60.50") :=
  ⟨rfl, rfl, fun hcontra => by injection hcontra with h2; exact absurd h2 (by decide)⟩

theorem C1_amount_resolution_witness :
    c1doc.amount = dget c1raw "total_amount" :=
  (C1_amount_resolution c1raw "receipt" c1doc rfl).1 rfl

/-- C5: extract_doc_info cannot raise on payloads whose contact field, when
truthy, is a dict and whose details field, when present, is a list of dicts. -/

theorem C5_no_raise_on_welltyped :
    ∀ (raw : List (String × PyVal)) (t : String),
      ((dget raw "contact").truthy = true → ∃ c, dget raw "contact" = .pydict c) →
      (∃ items, dgetD raw "details" (.pylist []) = .pylist items ∧
        ∀ it ∈ items, ∃ dd, it = .pydict dd) →
      (extract_doc_info raw t).isOk = true := by
  intro raw t hcon hdet
  obtain ⟨items, hdet, hdd⟩ := hdet
  have hcn : ∃ cn, extractContact raw = .ok cn := by
    by_cases hb : (dget raw "contact").truthy
    · obtain ⟨c, hc⟩ := hcon hb
      exact ⟨_, extractContact_dict hc (hc ▸ hb)⟩
    · simp only [Bool.not_eq_true] at hb
      exact ⟨_, extractContact_no_contact hb⟩
  obtain ⟨cn, hcn⟩ := hcn
  unfold extract_doc_info
  rw [hcn, ebind_ok, hdet]
  rw [show pyIter (.pylist items) = .ok items from rfl, ebind_ok]
  rw [extractLineItems_ok_of_dicts hdd, ebind_ok, epure]
  rfl

/-- C5 counterexample: a truthy non-dict contact raises AttributeError. -/
theorem C5_counterexample :
    extract_doc_info [("contact", .pystr "x")] "receipt" = .error .attributeError := rfl

theorem C5_no_raise_witness : (extract_doc_info c5raw "receipt").isOk = true :=
  C5_no_raise_on_welltyped c5raw "receipt"
    (fun _ => ⟨[("company_name", .pystr "ACME")], rfl⟩)
    ⟨[.pydict [("description", .pystr "pens")]], rfl, by
      intro it hit
      rw [List.mem_singleton] at hit
      exact ⟨_, hit⟩⟩

/-- C6: contact resolution actually implemented: inside a truthy embedded
contact only company_name and firstname are consulted; contact_id is used only
when there is no truthy embedded contact. -/

theorem C6_contact_resolution :
    ∀ (raw : List (String × PyVal)) (t : String) (d : DocInfo),
      extract_doc_info raw t = .ok d →
      (∀ c, dget raw "contact" = .pydict c → (PyVal.pydict c).truthy = true →
        ((dget c "company_name").truthy = true → d.contact = dget c "company_name") ∧
        ((dget c "company_name").truthy = false →
          d.contact = dgetD c "firstname" (.pystr ""))) ∧
      ((dget raw "contact").truthy = false → (dget raw "contact_id").truthy = true →
        d.contact = dgetD raw "contact_id" (.pystr "")) ∧
      ((dget raw "contact").truthy = false → (dget raw "contact_id").truthy = false →
        d.contact = .pystr "") := by
  intro raw t d h
  obtain ⟨cn, details, lis, hcn, hdi, hlis, hd⟩ := extract_doc_info_ok h
  subst hd
  refine ⟨fun c hc ht => ?_, fun h1 h2 => ?_, fun h1 h2 => ?_⟩
  · rw [extractContact_dict hc ht] at hcn
    cases hcn
    exact ⟨fun hb => by simp [docShape, hb], fun hb => by simp [docShape, hb]⟩
  · rw [extractContact_no_contact h1] at hcn
    cases hcn
    simp [docShape, h2]
  · rw [extractContact_no_contact h1] at hcn
    cases hcn
    simp [docShape, h2]

/-- C6 counterexample: an embedded contact with empty names shadows contact_id. -/
theorem C6_counterexample :
    extract_doc_info c6raw "receipt" = .ok c6doc ∧
    c6doc.contact = .pystr "" ∧ (PyVal.pystr "") ≠ (.pystr "42") :=
  ⟨rfl, rfl, fun hcontra => by injection hcontra with h2; exact absurd h2 (by decide)⟩

theorem C6_contact_resolution_witness :
    c6doc.contact =
      dgetD [("company_name", PyVal.pystr ""), ("firstname", PyVal.pystr "")]
        "firstname" (.pystr "") :=
  ((C6_contact_resolution c6raw "receipt" c6doc rfl).1 _ rfl rfl).2 rfl

/-- C9: each raw detail entry maps to exactly one line item, in order, with
count preserved, and a missing description becomes the empty string. -/

theorem C9_line_items_map :
    ∀ (raw : List (String × PyVal)) (t : String) (d : DocInfo) (items : List PyVal),
      dgetD raw "details" (.pylist []) = .pylist items →
      extract_doc_info raw t = .ok d →
      d.line_items = items.map lineOf ∧
      d.line_items.length = items.length ∧
      (∀ dd : List (String × PyVal), dd.lookup "description" = none →
        (lineOf (.pydict dd)).description = .pystr "") := by
  intro raw t d items hdet h
  obtain ⟨cn, details, lis, hcn, hdi, hlis, hd⟩ := extract_doc_info_ok h
  subst hd
  rw [hdet] at hdi
  simp only [pyIter, Except.ok.injEq] at hdi
  subst hdi
  have hmap := extractLineItems_ok hlis
  refine ⟨by simpa [docShape] using hmap, by simp [docShape, hmap], ?_⟩
  intro dd hdd
  simp [lineOf, dgetD, hdd]

theorem C9_line_items_witness :
    c9doc.line_items = c9items.map lineOf ∧ c9doc.line_items.length = c9items.length :=
  ⟨(C9_line_items_map c9raw "receipt" c9doc c9items rfl rfl).1,
   (C9_line_items_map c9raw "receipt" c9doc c9items rfl rfl).2.1⟩

theorem replaceCommaDot_idem (s : String) :
    replaceCommaDot (replaceCommaDot s) = replaceCommaDot s := by
  unfold replaceCommaDot
  apply congrArg String.mk
  rw [show (String.mk (s.data.map fun c => if c = ',' then '.' else c)).data
      = s.data.map (fun c => if c = ',' then '.' else c) from rfl]
  rw [List.map_map]
  apply List.map_congr_left
  intro c _
  by_cases h : c = ','
  · simp [h]
  · simp [Function.comp, h]

theorem mutationCents_some_dict {m : PyVal} {mc : Int} (h : mutationCents m = some mc) :
    ∃ d, m = .pydict d := by
  cases m with
  | pydict d => exact ⟨d, rfl⟩
  | pynone => exact absurd h (by simp [mutationCents])
  | pybool b => exact absurd h (by simp [mutationCents])
  | pyint n => exact absurd h (by simp [mutationCents])
  | pystr s => exact absurd h (by simp [mutationCents])
  | pylist l => exact absurd h (by simp [mutationCents])

theorem candidateOf_welltyped {d : List (String × PyVal)}
    (h : (dget d "contact").truthy = true → ∃ c, dget d "contact" = .pydict c) :
    candidateOf d = .ok (candidatePure d) := by
  unfold candidateOf candidatePure
  by_cases hb : (dget d "contact").truthy
  · obtain ⟨c, hc⟩ := h hb
    rw [hc] at hb ⊢
    simp [hb, PyVal.getA]
  · simp [hb]

theorem candidateOf_verdict {d : List (String × PyVal)} {c0 : PaymentCandidate}
    (h : candidateOf d = .ok c0) : c0.verdict = none := by
  unfold candidateOf at h
  split at h
  · exact absurd h (by simp)
  · cases h
    rfl

theorem stepCandidate_ok {amt tol : Int} {m : PyVal}
    {tail : Except PyErr (List PaymentCandidate)} {cs : List PaymentCandidate}
    (h : stepCandidate amt tol m tail = .ok cs) :
    ∃ tcs, tail = .ok tcs ∧
      (cs = tcs ∨ ∃ d c0, m = .pydict d ∧ candidateOf d = .ok c0 ∧ cs = c0 :: tcs) := by
  unfold stepCandidate at h
  split at h
  · exact ⟨cs, h, Or.inl rfl⟩
  · split at h
    · split at h
      · split at h
        · exact absurd h (by simp)
        · split at h
          · exact absurd h (by simp)
          · cases h
            rename_i v d hmc x c hco tail0 cs0
            exact ⟨cs0, rfl, Or.inr ⟨d, c, rfl, hco, rfl⟩⟩
      · exact ⟨cs, h, Or.inl rfl⟩
    · exact ⟨cs, h, Or.inl rfl⟩

theorem candOf_eq_none {amt tol : Int} {m : PyVal} (h : mutationCents m = none) :
    candOf amt tol m = none := by
  cases m <;> simp [candOf, h]

/-- C2: comma and dot decimal separators parse identically (replacement makes
them literally the same string), with the concrete values claimed, and the
tolerance boundary at target 10000 includes "101.00" and excludes "101.01". -/

theorem C2_amount_parsing :
    (∀ s : String, pyAmountCents s = pyAmountCents (replaceCommaDot s)) ∧
    pyAmountCents "12,34" = some 1234 ∧
    pyAmountCents "12.34" = some 1234 ∧
    find_payment_candidates 10000 .pynone 100
      [.pydict [("id", .pyint 1), ("amount", .pystr "101.00")],
       .pydict [("id", .pyint 2), ("amount", .pystr "101.01")]] =
      .ok [candidatePure [("id", .pyint 1), ("amount", .pystr "101.00")]] := by
  refine ⟨fun s => ?_, ?_, ?_, ?_⟩
  · unfold pyAmountCents
    rw [replaceCommaDot_idem]
  · rfl
  · rfl
  · rfl

/-- C4: the matcher returns exactly the in-tolerance mutations, converted, in
source order, with unparseable amounts silently skipped, verdicts unset, and
the empty list mapping to an empty result. -/

theorem C4_candidates_filter :
    (∀ (amt tol : Int) (hint : PyVal) (ms : List PyVal),
      (∀ m ∈ ms, ∀ d, m = .pydict d → (dget d "contact").truthy = true →
        ∃ c, dget d "contact" = .pydict c) →
      find_payment_candidates amt hint tol ms = .ok (ms.filterMap (candOf amt tol))) ∧
    (∀ (amt tol : Int) (hint : PyVal) (ms : List PyVal) (cs : List PaymentCandidate),
      find_payment_candidates amt hint tol ms = .ok cs →
      ∀ cand ∈ cs, cand.verdict = none) ∧
    (∀ (amt tol : Int) (m : PyVal), mutationCents m = none → candOf amt tol m = none) ∧
    (∀ (amt tol : Int) (hint : PyVal), find_payment_candidates amt hint tol [] = .ok []) := by
  refine ⟨?_, ?_, fun amt tol m h => candOf_eq_none h, fun amt tol hint => rfl⟩
  · intro amt tol hint ms
    induction ms with
    | nil => intro _; rfl
    | cons m rest ih =>
      intro h
      have hrest := ih (fun x hx => h x (List.mem_cons_of_mem _ hx))
      simp only [find_payment_candidates]
      rw [hrest, List.filterMap_cons]
      cases hmc : mutationCents m with
      | none => simp [stepCandidate, hmc, candOf_eq_none hmc]
      | some mc =>
        obtain ⟨d, hd⟩ := mutationCents_some_dict hmc
        subst hd
        have hwt := h (.pydict d) (List.mem_cons_self _ _) d rfl
        by_cases htol : |mc - amt| ≤ tol
        · simp [stepCandidate, hmc, htol, candidateOf_welltyped hwt, candOf]
        · simp [stepCandidate, hmc, htol, candOf]
  · intro amt tol hint ms
    induction ms with
    | nil =>
      intro cs h cand hc
      cases h
      simp at hc
    | cons m rest ih =>
      intro cs h cand hcand
      simp only [find_payment_candidates] at h
      obtain ⟨tcs, htail, hcase⟩ := stepCandidate_ok h
      rcases hcase with heq | ⟨d, c0, hm, hco, heq⟩
      · subst heq
        exact ih _ htail cand hcand
      · subst heq
        rcases List.mem_cons.mp hcand with rfl | hc
        · exact candidateOf_verdict hco
        · exact ih _ htail cand hc

/-- C8: the counterparty-name hint has no influence on the candidate list. -/
theorem C8_contact_hint_no_influence :
    ∀ (amount_cents tolerance_cents : Int) (hint1 hint2 : PyVal) (ms : List PyVal),
      find_payment_candidates amount_cents hint1 tolerance_cents ms =
        find_payment_candidates amount_cents hint2 tolerance_cents ms := by
  intro amt tol h1 h2 ms
  induction ms with
  | nil => rfl
  | cons m rest ih =>
    simp only [find_payment_candidates]
    rw [ih]

theorem C4_candidates_filter_witness :
    find_payment_candidates 1000 .pynone 100 c4ms =
      .ok (c4ms.filterMap (candOf 1000 100)) :=
  C4_candidates_filter.1 1000 100 .pynone c4ms (by
    intro m hm d hmd htr
    subst hmd
    simp only [c4ms, List.mem_cons, List.not_mem_nil, or_false] at hm
    rcases hm with h | h | h | h <;>
      (simp only [PyVal.pydict.injEq] at h; subst h; exact absurd htr (by decide)))

theorem traceBind_ok (cs : List ExtCall) (a : α) (f : α → Trace β) :
    traceBind (cs, .ok a) f = (cs ++ (f a).1, (f a).2) := rfl

theorem traceBind_err (cs : List ExtCall) (e : PyErr) (f : α → Trace β) :
    traceBind (cs, .error e) f = (cs, .error e) := rfl

theorem handleBook_malformed {env : BotEnv} {value channel ts : String}
    (h : (pySplit value ':' 1).length ≠ 2) :
    handleBookDocument env value channel ts = [] := by
  unfold handleBookDocument
  rcases hsp : pySplit value ':' 1 with _ | ⟨a, _ | ⟨b, _ | ⟨c, t⟩⟩⟩
  · rfl
  · rfl
  · exact absurd (by rw [hsp]; rfl) h
  · rfl

theorem handleSkip_malformed {env : BotEnv} {value channel ts : String}
    (h : (pySplit value ':' 1).length ≠ 2) :
    handleSkipDocument env value channel ts = [] := by
  unfold handleSkipDocument
  rcases hsp : pySplit value ':' 1 with _ | ⟨a, _ | ⟨b, _ | ⟨c, t⟩⟩⟩
  · rfl
  · rfl
  · exact absurd (by rw [hsp]; rfl) h
  · rfl

theorem handleLink_malformed {env : BotEnv} {value channel ts : String}
    (h : (pySplit value ':' 2).length ≠ 3) :
    handleLinkPayment env value channel ts = [] := by
  unfold handleLinkPayment
  rcases hsp : pySplit value ':' 2 with _ | ⟨a, _ | ⟨b, _ | ⟨c, _ | ⟨e, t⟩⟩⟩⟩
  · rfl
  · rfl
  · rfl
  · exact absurd (by rw [hsp]; rfl) h
  · rfl

theorem slack_actions_dispatch {env : BotEnv} {hmacHex : String → String → String}
    {secret : String} {now : Int} {req : SlackRequest} {a : SlackAction}
    (hv : verify_slack_signature hmacHex secret now req = .ok true)
    (ha : req.payload.actions = [a]) :
    slack_actions env hmacHex secret now req =
      .ok (200,
        if a.action_id = "book_document" then
          handleBookDocument env a.value req.payload.channel req.payload.ts
        else if a.action_id = "skip_document" then
          handleSkipDocument env a.value req.payload.channel req.payload.ts
        else if a.action_id = "link_payment" then
          handleLinkPayment env a.value req.payload.channel req.payload.ts
        else []) := by
  unfold slack_actions
  rw [hv, ebind_ok, ha]
  rfl

/-- C3: a failed signature check yields 403 with no downstream call; a timestamp
301 seconds stale is rejected regardless of the HMAC; an HMAC mismatch can only
verify false. -/

theorem C3_signature_failure_rejected :
    (∀ (env : BotEnv) (hmacHex : String → String → String) (secret : String)
        (now : Int) (req : SlackRequest),
      verify_slack_signature hmacHex secret now req = .ok false →
      slack_actions env hmacHex secret now req = .ok (403, [])) ∧
    (∀ (hmacHex : String → String → String) (secret : String) (now : Int)
        (req : SlackRequest) (ts : Int),
      pyIntParse req.tsHeader = .ok ts → now - ts = 301 →
      verify_slack_signature hmacHex secret now req = .ok false) ∧
    (∀ (hmacHex : String → String → String) (secret : String) (now : Int)
        (req : SlackRequest) (b : Bool),
      verify_slack_signature hmacHex secret now req = .ok b →
      "v0=" ++ hmacHex secret ("v0:" ++ req.tsHeader ++ ":" ++ req.body) ≠ req.sigHeader →
      b = false) := by
  refine ⟨?_, ?_, ?_⟩
  · intro env hmacHex secret now req h
    unfold slack_actions
    rw [h, ebind_ok]
    rfl
  · intro hmacHex secret now req ts h1 h2
    unfold verify_slack_signature
    rw [h1, ebind_ok, h2]
    rw [if_pos (by decide)]
    rfl
  · intro hmacHex secret now req b h hne
    unfold verify_slack_signature at h
    cases hts : pyIntParse req.tsHeader with
    | error e => rw [hts, ebind_err] at h; exact absurd h (by simp)
    | ok ts =>
      rw [hts, ebind_ok] at h
      split at h
      · cases h; rfl
      · cases h
        exact beq_eq_false_iff_ne.mpr hne

theorem C3_signature_failure_witness :
    slack_actions botEnvTrivial hmacConst "sec" 301 reqStale = .ok (403, []) :=
  C3_signature_failure_rejected.1 botEnvTrivial hmacConst "sec" 301 reqStale
    (C3_signature_failure_rejected.2.1 hmacConst "sec" 301 reqStale 0 rfl rfl)

/-- C7: a callback value with fewer delimited parts than the action needs is
silently ignored (200, no downstream call); "receipt:123" routes to the receipt
fetch of document 123; extra delimiters are absorbed into the final field, not
rejected. -/

theorem C7_callback_value_parsing :
    (∀ (env : BotEnv) (hmacHex : String → String → String) (secret : String)
        (now : Int) (req : SlackRequest) (v : String),
      verify_slack_signature hmacHex secret now req = .ok true →
      req.payload.actions = [⟨"book_document", v⟩] →
      (pySplit v ':' 1).length ≠ 2 →
      slack_actions env hmacHex secret now req = .ok (200, [])) ∧
    (∀ (env : BotEnv) (hmacHex : String → String → String) (secret : String)
        (now : Int) (req : SlackRequest) (v : String),
      verify_slack_signature hmacHex secret now req = .ok true →
      req.payload.actions = [⟨"skip_document", v⟩] →
      (pySplit v ':' 1).length ≠ 2 →
      slack_actions env hmacHex secret now req = .ok (200, [])) ∧
    (∀ (env : BotEnv) (hmacHex : String → String → String) (secret : String)
        (now : Int) (req : SlackRequest) (v : String),
      verify_slack_signature hmacHex secret now req = .ok true →
      req.payload.actions = [⟨"link_payment", v⟩] →
      (pySplit v ':' 2).length ≠ 3 →
      slack_actions env hmacHex secret now req = .ok (200, [])) ∧
    (∀ (env : BotEnv) (channel ts : String),
      (handleBookDocument env "receipt:123" channel ts).head? =
        some (.getReceipt "123")) ∧
    (∀ (env : BotEnv) (channel ts : String),
      (handleBookDocument env "receipt:123:456" channel ts).head? =
        some (.getReceipt "123:456")) := by
  refine ⟨?_, ?_, ?_, ?_, ?_⟩
  · intro env hmacHex secret now req v hv ha hlen
    rw [slack_actions_dispatch hv ha]
    simp [handleBook_malformed hlen]
  · intro env hmacHex secret now req v hv ha hlen
    rw [slack_actions_dispatch hv ha]
    simp [handleSkip_malformed hlen]
  · intro env hmacHex secret now req v hv ha hlen
    rw [slack_actions_dispatch hv ha]
    simp [handleLink_malformed hlen]
  · intro env channel ts
    unfold handleBookDocument
    rw [show pySplit "receipt:123" ':' 1 = ["receipt", "123"] from rfl]
    cases hf : env.getReceipt "123" with
    | none => simp [hf]
    | some raw =>
      cases he : extract_doc_info raw "receipt" with
      | error e => simp [hf, he]
      | ok d => cases hb : env.bookReceipt "123" <;> simp [hf, he, hb]
  · intro env channel ts
    unfold handleBookDocument
    rw [show pySplit "receipt:123:456" ':' 1 = ["receipt", "123:456"] from rfl]
    cases hf : env.getReceipt "123:456" with
    | none => simp [hf]
    | some raw =>
      cases he : extract_doc_info raw "receipt" with
      | error e => simp [hf, he]
      | ok d => cases hb : env.bookReceipt "123:456" <;> simp [hf, he, hb]

/-- C7 counterexample: a book value with three delimited parts is not ignored —
the maxsplit-1 split yields two parts and downstream calls are issued for
document id "123:456". -/

theorem C7_counterexample :
    slack_actions env7 hmacConst "sec" 0 req7 =
      .ok (200, [.getReceipt "123:456", .bookReceipt "123:456",
        .updateBooked "C" "T" "Receipt" (.pystr "")]) ∧
    (ExtCall.getReceipt "123:456" :: [ExtCall.bookReceipt "123:456",
        .updateBooked "C" "T" "Receipt" (.pystr "")]) ≠ [] :=
  ⟨rfl, by simp⟩

theorem C7_callback_value_parsing_witness :
    slack_actions botEnvTrivial hmacConst "sec" 0 req7b = .ok (200, []) :=
  C7_callback_value_parsing.1 botEnvTrivial hmacConst "sec" 0 req7b "receipt" rfl rfl
    (by decide)

/-- C10: a failed receipt fetch falls back to the typeless-document fetch and the
pipeline continues on that payload; a failed purchase-invoice fetch aborts the
run, caught and logged by the outer handler, with no further downstream calls. -/

theorem C10_receipt_fetch_fallback :
    (∀ (env : BotEnv) (id : String) (raw : List (String × PyVal)),
      env.getReceipt id = none → env.getTypeless id = some raw →
      process_document env "receipt" id =
        (match processBody env "receipt" id raw with
         | (cs, .ok _) => (Outcome.completed, .getReceipt id :: .getTypeless id :: cs)
         | (cs, .error _) => (Outcome.errorLogged, .getReceipt id :: .getTypeless id :: cs))) ∧
    (∀ (env : BotEnv) (id : String),
      env.getPurchaseInvoice id = none →
      process_document env "purchase_invoice" id =
        (Outcome.errorLogged, [.getPurchaseInvoice id])) := by
  constructor
  · intro env id raw h1 h2
    unfold process_document
    rw [if_pos rfl, h1, h2]
    dsimp only
    rw [traceBind_ok]
    cases hp : processBody env "receipt" id raw with
    | mk cs2 r2 => cases r2 <;> simp
  · intro env id h
    unfold process_document
    rw [if_neg (by decide), h]
    dsimp only
    rw [traceBind_err]

theorem C10_receipt_fetch_fallback_witness :
    process_document envC10 "receipt" "7" =
      (Outcome.errorLogged,
        [.getReceipt "7", .getTypeless "7", .suggestJournal emptyReceiptDoc]) ∧
    process_document botEnvTrivial "purchase_invoice" "9" =
      (Outcome.errorLogged, [.getPurchaseInvoice "9"]) :=
  ⟨(C10_receipt_fetch_fallback.1 envC10 "7" [] rfl rfl).trans rfl,
   C10_receipt_fetch_fallback.2 botEnvTrivial "9" rfl⟩

end Moneybird
